import Mathlib

/-!
Shallow embedding of the imgui-log crate (src/src/lib.rs).

The crate routes `log`-facade records through a bounded non-blocking
mpsc channel (capacity 128) into a render-side buffer (`LogWindow`).
The channel (`std::sync::mpsc::sync_channel`) is modelled as an explicit
state value `Channel` (a capacity plus a FIFO queue of `LogLine`s) that is
threaded through the sender operation `try_send` and the receiver
operation `try_recv`; the `SyncSender` / `Receiver` halves held by
`ChanneledLogger` and `LogWindow` in the Rust code are both views of this
one shared queue. Side effects (the optional stdout mirror, the imgui
draw calls, the clipboard) are modelled as explicit outputs.
-/

/-- Log level of the external `log` crate facade. The Rust enum has
discriminants Error = 1, Warn = 2, Info = 3, Debug = 4, Trace = 5 and
derives its order from them, so `level <= Level::Debug` means
"severity at least Debug". -/
inductive Level where
  | Error
  | Warn
  | Info
  | Debug
  | Trace
  deriving DecidableEq, Repr

/-- The `usize` representation of a level in the `log` crate
(Error = 1 through Trace = 5); the crate's `<=` compares these. -/
def Level.toUsize : Level → Nat
  | .Error => 1
  | .Warn => 2
  | .Info => 3
  | .Debug => 4
  | .Trace => 5

/-- Severity rank with Trace least severe and Error most severe
(the spec's ordering Trace < Debug < Info < Warn < Error). -/
def Level.severity : Level → Nat
  | .Trace => 0
  | .Debug => 1
  | .Info => 2
  | .Warn => 3
  | .Error => 4

/-- `Display` of `log::Level`: the upper-case level name. -/
def Level.display : Level → String
  | .Error => "ERROR"
  | .Warn => "WARN"
  | .Info => "INFO"
  | .Debug => "DEBUG"
  | .Trace => "TRACE"

/-- `log::LevelFilter` as set by `log::set_max_level`. -/
inductive LevelFilter where
  | Off
  | Error
  | Warn
  | Info
  | Debug
  | Trace
  deriving DecidableEq, Repr

/-- A `log::Record`: level, target (module path), optional source file
and line, and the formatted message arguments (`record.args()`,
flattened to the string the Rust code obtains via `to_string()`). -/
structure Record where
  level : Level
  target : String
  file : Option String
  line : Option Nat
  args : String
  deriving DecidableEq, Repr

/-- A `log::Metadata`: the part of a record the `enabled` check sees. -/
structure Metadata where
  level : Level
  target : String
  deriving DecidableEq, Repr

/-- `Record::metadata()`. -/
def Record.metadata (r : Record) : Metadata :=
  { level := r.level, target := r.target }

/-- A single line of formatted text (src/src/lib.rs `LogLine`). -/
structure LogLine where
  level : Level
  text : String
  deriving DecidableEq, Repr

/-- `default_formatter` (src/src/lib.rs lines 116-123): with both file
and line known, `"{file}:{line} --- {LEVEL}: {message}\n"`; otherwise
`"{target} --- {LEVEL}: {message}\n"`. -/
def default_formatter (record : Record) : String :=
  let msg := record.args
  match record.file, record.line with
  | some file, some line =>
      file ++ ":" ++ toString line ++ " --- " ++ record.level.display ++ ": " ++ msg ++ "\n"
  | _, _ =>
      record.target ++ " --- " ++ record.level.display ++ ": " ++ msg ++ "\n"

/-- The bounded mpsc channel created by `mpsc::sync_channel(128)`:
a fixed capacity and the FIFO queue of lines currently buffered. -/
structure Channel where
  cap : Nat
  queue : List LogLine
  deriving DecidableEq, Repr

/-- `SyncSender::try_send`: non-blocking; enqueues at the back when
there is room and reports success, otherwise leaves the queue
untouched and reports failure (the `Err` the Rust caller discards). -/
def Channel.try_send (ch : Channel) (line : LogLine) : Channel × Bool :=
  if ch.queue.length < ch.cap then
    ({ ch with queue := ch.queue ++ [line] }, true)
  else
    (ch, false)

/-- `Receiver::try_recv`: non-blocking; pops the front of the queue
when non-empty. -/
def Channel.try_recv (ch : Channel) : Option LogLine × Channel :=
  match ch.queue with
  | [] => (none, ch)
  | line :: rest => (some line, { ch with queue := rest })

/-- Backend for the log crate facade (src/src/lib.rs `ChanneledLogger`).
The `channel: mpsc::SyncSender<LogLine>` field is represented by
threading the shared `Channel` state through `log`. -/
structure ChanneledLogger where
  formatter : Record → String
  stdout : Bool

/-- `ChanneledLogger::enabled` (lines 136-139):
`metadata.level() <= Level::Debug` in the `log` crate's order. -/
def ChanneledLogger.enabled (_self : ChanneledLogger) (metadata : Metadata) : Bool :=
  decide (metadata.level.toUsize ≤ Level.Debug.toUsize)

/-- `ChanneledLogger::log` (lines 141-158). Returns the updated channel
together with the list of strings written to stdout by this call
(empty when the record is filtered out or mirroring is off).
The result of `try_send` is discarded exactly as `let _ = ...` does. -/
def ChanneledLogger.log (self : ChanneledLogger) (record : Record) (ch : Channel) :
    Channel × List String :=
  if self.enabled record.metadata then
    let text := self.formatter record
    let out := if self.stdout then [text] else []
    let line : LogLine := { text := text, level := record.level }
    ((ch.try_send line).1, out)
  else
    (ch, [])

/-- `ChanneledLogger::flush`: a no-op. -/
def ChanneledLogger.flush (_self : ChanneledLogger) : Unit := ()

/-- An RGBA color, `[f32; 4]`. -/
abbrev Color := Float × Float × Float × Float

/-- Colors used by LogWindow when rendering (src/src/lib.rs `LogColors`). -/
structure LogColors where
  trace : Color
  debug : Color
  info : Color
  warn : Color
  error : Color

/-- `LogColors::default()`: Trace green, Debug blue, Info white,
Warn yellow, Error red. -/
def LogColors.default : LogColors :=
  { trace := (0, 1, 0, 1)
  , debug := (0, 0, 1, 1)
  , info := (1, 1, 1, 1)
  , warn := (1, 1, 0, 1)
  , error := (1, 0, 0, 1) }

/-- `LogColors::level` (lines 186-194): total lookup by level. -/
def LogColors.level (self : LogColors) (level : Level) : Color :=
  match level with
  | .Trace => self.trace
  | .Debug => self.debug
  | .Info => self.info
  | .Warn => self.warn
  | .Error => self.error

/-- The imgui frontend for ChanneledLogger (src/src/lib.rs `LogWindow`).
The `channel: mpsc::Receiver<LogLine>` field is represented by threading
the shared `Channel` state through `sync` and `build`. -/
structure LogWindow where
  buf : List LogLine
  autoscroll : Bool
  colors : LogColors

/-- `LogWindow::new` (lines 207-214), with the receiver half threaded
separately: empty buffer, autoscroll off, default colors. -/
def LogWindow.new : LogWindow :=
  { buf := [], autoscroll := false, colors := LogColors.default }

/-- `LogWindow::sync` (lines 218-222): loop `try_recv` until the channel
is empty, pushing each received line onto the buffer. -/
def LogWindow.sync (w : LogWindow) (ch : Channel) : LogWindow × Channel :=
  match h : ch.queue with
  | [] => (w, ch)
  | line :: rest =>
      LogWindow.sync { w with buf := w.buf ++ [line] } { ch with queue := rest }
termination_by ch.queue.length
decreasing_by simp [h]

/-- `LogWindow::clear` (lines 224-226). -/
def LogWindow.clear (w : LogWindow) : LogWindow :=
  { w with buf := [] }

/-- `LogWindow::set_colors` (lines 228-230). -/
def LogWindow.set_colors (w : LogWindow) (colors : LogColors) : LogWindow :=
  { w with colors := colors }

/-- The observable outcome of one `LogWindow::build` frame: the updated
window and channel, the string placed on the clipboard when Copy was
pressed, and the colored lines handed to `ui.text_colored`. -/
structure BuildOutput where
  window : LogWindow
  channel : Channel
  clipboard : Option String
  displayed : List (Color × String)

/-- `LogWindow::build` (lines 232-278) as a state transition: the UI
button states for the frame (Clear, Copy) are inputs; the imgui draw
calls are the `displayed` output. As in the source, `sync` runs first,
then Clear empties the buffer, then Copy joins the remaining lines'
text with newline separators onto the clipboard, then each buffered
line is drawn in the color looked up from the palette by its level. -/
def LogWindow.build (w : LogWindow) (ch : Channel) (clearPressed copyPressed : Bool) :
    BuildOutput :=
  let s := w.sync ch
  let w1 := s.1
  let ch1 := s.2
  let w2 := if clearPressed then w1.clear else w1
  let clipboard :=
    if copyPressed then
      some (String.intercalate "\n" (w2.buf.map (fun l => l.text)))
    else
      none
  let displayed := w2.buf.map (fun r => (w2.colors.level r.level, r.text))
  { window := w2, channel := ch1, clipboard := clipboard, displayed := displayed }

/-- ChanneledLogger builder (src/src/lib.rs `LoggerConfig`). -/
structure LoggerConfig where
  formatter : Option (Record → String)
  colors : Option LogColors
  stdout : Bool

/-- `LoggerConfig::default()` (lines 292-300). -/
def LoggerConfig.default : LoggerConfig :=
  { formatter := none, colors := none, stdout := true }

/-- `LoggerConfig::formatter` (lines 303-306): set the formatter field,
return the modified configuration. -/
def LoggerConfig.with_formatter (self : LoggerConfig) (formatter : Record → String) :
    LoggerConfig :=
  { self with formatter := some formatter }

/-- `LoggerConfig::colors` (lines 308-311). -/
def LoggerConfig.with_colors (self : LoggerConfig) (colors : LogColors) : LoggerConfig :=
  { self with colors := some colors }

/-- `LoggerConfig::stdout` (lines 313-316). -/
def LoggerConfig.with_stdout (self : LoggerConfig) (stdout : Bool) : LoggerConfig :=
  { self with stdout := stdout }

/-- `LoggerConfig::build` (lines 318-333), with the `SyncSender` argument
represented by the explicitly threaded `Channel` state: choose the
custom formatter if one was set, else `default_formatter`. -/
def LoggerConfig.build (self : LoggerConfig) : ChanneledLogger :=
  let formatter :=
    match self.formatter with
    | some f => f
    | none => default_formatter
  { formatter := formatter, stdout := self.stdout }

/-- Modelled from the spec: the process-wide logging facade of the
external `log` crate (its `set_boxed_logger` / `set_max_level` global
registration point is not part of this repository). It holds at most
one installed backend and the max level filter; the spec (section 6)
describes it as a single-writer registration point that fails if a
backend is already set. -/
structure Facade where
  logger : Option ChanneledLogger
  max_level : LevelFilter

/-- The facade state at process start: no backend installed. -/
def Facade.start : Facade :=
  { logger := none, max_level := .Off }

/-- `log::SetLoggerError`: returned when a logger was already set. -/
inductive SetLoggerError where
  | alreadySet
  deriving DecidableEq, Repr

/-- Modelled from the spec: `log::set_boxed_logger` — installs the
backend, or fails with `SetLoggerError` when one is already installed. -/
def set_boxed_logger (logger : ChanneledLogger) (st : Facade) :
    Except SetLoggerError Facade :=
  match st.logger with
  | some _ => .error .alreadySet
  | none => .ok { st with logger := some logger }

/-- Modelled from the spec: `log::set_max_level`. -/
def set_max_level (f : LevelFilter) (st : Facade) : Facade :=
  { st with max_level := f }

/-- `set_logger` (src/src/lib.rs lines 337-339):
`log::set_boxed_logger(...).map(|()| log::set_max_level(LevelFilter::Debug))`. -/
def set_logger (logger : ChanneledLogger) (st : Facade) :
    Except SetLoggerError Facade :=
  match set_boxed_logger logger st with
  | .ok st1 => .ok (set_max_level .Debug st1)
  | .error e => .error e

/-- `init_with_config` (src/src/lib.rs lines 343-355): create the
capacity-128 channel, the window (with the configured colors when
given), build the logger and register it. The Rust code calls
`set_logger(logger).unwrap()`, which panics on a registration
conflict; the panic is modelled as the `Except.error` branch. -/
def init_with_config (config : LoggerConfig) (st : Facade) :
    Except SetLoggerError ((LogWindow × Channel) × Facade) :=
  let ch : Channel := { cap := 128, queue := [] }
  let window := LogWindow.new
  let window1 :=
    match config.colors with
    | some colors => window.set_colors colors
    | none => window
  let logger := config.build
  match set_logger logger st with
  | .ok st1 => .ok ((window1, ch), st1)
  | .error e => .error e

/-- `init` (src/src/lib.rs lines 359-361). -/
def init (st : Facade) : Except SetLoggerError ((LogWindow × Channel) × Facade) :=
  init_with_config LoggerConfig.default st

/-- A producer performing a sequence of raw sends (left to right). -/
def Channel.send_all (ch : Channel) (ls : List LogLine) : Channel :=
  ls.foldl (fun c l => (c.try_send l).1) ch

/-- A single producer performing a sequence of `log` calls
(left to right); the stdout mirror output is not collected. -/
def ChanneledLogger.log_all (self : ChanneledLogger) (records : List Record)
    (ch : Channel) : Channel :=
  records.foldl (fun c r => (self.log r c).1) ch

/-- Draining moves the whole queue, in order, onto the end of the buffer. -/
theorem LogWindow.sync_eq (w : LogWindow) (ch : Channel) :
    w.sync ch = ({ w with buf := w.buf ++ ch.queue }, { ch with queue := [] }) := by
  obtain ⟨cap, q⟩ := ch
  induction q generalizing w with
  | nil => simp [LogWindow.sync]
  | cons line rest ih =>
      rw [LogWindow.sync]
      simp only [ih]
      simp

/-- `try_send` preserves the capacity. -/
theorem Channel.try_send_cap (ch : Channel) (l : LogLine) :
    (ch.try_send l).1.cap = ch.cap := by
  unfold Channel.try_send
  split <;> rfl

/-- Queue contents after a sequence of raw sends: the sends that fit are
appended in order, the excess is dropped. -/
theorem Channel.send_all_queue (ls : List LogLine) (ch : Channel) :
    (ch.send_all ls).queue = ch.queue ++ ls.take (ch.cap - ch.queue.length)
      ∧ (ch.send_all ls).cap = ch.cap := by
  induction ls generalizing ch with
  | nil => simp [Channel.send_all]
  | cons l rest ih =>
      have step : Channel.send_all ch (l :: rest)
          = Channel.send_all (ch.try_send l).1 rest := rfl
      rw [step]
      by_cases hroom : ch.queue.length < ch.cap
      · have hsend : (ch.try_send l).1 = { ch with queue := ch.queue ++ [l] } := by
          unfold Channel.try_send
          simp [hroom]
        rw [hsend]
        obtain ⟨hq, hc⟩ := ih { ch with queue := ch.queue ++ [l] }
        refine ⟨?_, by simpa using hc⟩
        rw [hq]
        simp only [List.append_assoc, List.length_append, List.length_singleton]
        have harith : ch.cap - ch.queue.length = (ch.cap - (ch.queue.length + 1)) + 1 := by
          omega
        rw [harith]
        simp [List.take_succ_cons]
      · have hsend : (ch.try_send l).1 = ch := by
          unfold Channel.try_send
          simp [hroom]
        rw [hsend]
        obtain ⟨hq, hc⟩ := ih ch
        have hzero : ch.cap - ch.queue.length = 0 := by omega
        rw [hzero] at hq
        refine ⟨?_, hc⟩
        rw [hzero]
        simpa using hq

/-- Queue contents after a sequence of `log` calls that all fit: the
enabled records' formatted lines are appended in order. -/
theorem ChanneledLogger.log_all_queue (self : ChanneledLogger) (records : List Record)
    (ch : Channel) (hfit : ch.queue.length + records.length ≤ ch.cap) :
    (self.log_all records ch).queue =
        ch.queue ++ (records.filter (fun r => self.enabled r.metadata)).map
          (fun r => { level := r.level, text := self.formatter r })
      ∧ (self.log_all records ch).cap = ch.cap := by
  induction records generalizing ch with
  | nil => simp [ChanneledLogger.log_all]
  | cons r rest ih =>
      obtain ⟨cap, q⟩ := ch
      simp only [Channel.queue, Channel.cap, List.length_cons] at hfit
      have step : self.log_all (r :: rest) ⟨cap, q⟩
          = self.log_all rest (self.log r ⟨cap, q⟩).1 := rfl
      rw [step]
      by_cases hen : self.enabled r.metadata
      · have hroom : q.length < cap := by omega
        have hlog : (self.log r ⟨cap, q⟩).1
            = ⟨cap, q ++ [{ level := r.level, text := self.formatter r }]⟩ := by
          unfold ChanneledLogger.log Channel.try_send
          simp [hen, hroom]
        rw [hlog]
        obtain ⟨hq, hc⟩ :=
          ih ⟨cap, q ++ [{ level := r.level, text := self.formatter r }]⟩
            (by simp only [Channel.queue, Channel.cap, List.length_append,
                  List.length_singleton]
                omega)
        refine ⟨?_, by simpa using hc⟩
        rw [hq]
        simp [hen]
      · have hlog : (self.log r ⟨cap, q⟩).1 = ⟨cap, q⟩ := by
          unfold ChanneledLogger.log
          simp [hen]
        rw [hlog]
        obtain ⟨hq, hc⟩ := ih ⟨cap, q⟩
          (by simp only [Channel.queue, Channel.cap]; omega)
        refine ⟨?_, hc⟩
        rw [hq]
        simp [hen]

/-- A concrete logger (default formatter, mirroring off) for witnesses. -/
def demoLogger : ChanneledLogger :=
  { formatter := default_formatter, stdout := false }

/-- A concrete Warn-level record with known file and line. -/
def demoRecordWarn : Record :=
  { level := .Warn, target := "mod", file := some "a.rs", line := some 10, args := "x" }

/-- A concrete Info-level record with no file or line. -/
def demoRecordInfo : Record :=
  { level := .Info, target := "mod", file := none, line := none, args := "y" }

/-- A concrete Trace-level record. -/
def demoRecordTrace : Record :=
  { level := .Trace, target := "mod", file := some "a.rs", line := some 11, args := "t" }

/-- An empty capacity-128 channel, as produced by `init_with_config`. -/
def demoChannel : Channel :=
  { cap := 128, queue := [] }

/-- A full channel of capacity 1. -/
def demoFullChannel : Channel :=
  { cap := 1, queue := [{ level := .Info, text := "old\n" }] }

/-- Claim C1: `enabled` holds iff the level is at least as severe as
Debug; explicitly it is false for Trace and true for Debug, Info, Warn
and Error; a `log` call on a Trace record is a no-op producing neither
a channel entry nor stdout output; and on any enabled record, when the
channel has room, `log` appends exactly one LogLine — the formatted
record — to the queue. -/
theorem c1_enabled_and_per_call_line :
    (∀ (l : ChanneledLogger) (m : Metadata),
        l.enabled m = true ↔ Level.Debug.severity ≤ m.level.severity)
  ∧ (∀ (l : ChanneledLogger) (t : String),
        l.enabled { level := .Trace, target := t } = false
      ∧ l.enabled { level := .Debug, target := t } = true
      ∧ l.enabled { level := .Info, target := t } = true
      ∧ l.enabled { level := .Warn, target := t } = true
      ∧ l.enabled { level := .Error, target := t } = true)
  ∧ (∀ (l : ChanneledLogger) (r : Record) (ch : Channel),
        r.level = .Trace → l.log r ch = (ch, []))
  ∧ (∀ (l : ChanneledLogger) (r : Record) (ch : Channel),
        l.enabled r.metadata = true → ch.queue.length < ch.cap →
        (l.log r ch).1.queue
            = ch.queue ++ [{ level := r.level, text := l.formatter r }]
          ∧ (l.log r ch).1.queue.length = ch.queue.length + 1) := by
  refine ⟨?_, ?_, ?_, ?_⟩
  · intro l m
    cases hm : m.level <;>
      simp [ChanneledLogger.enabled, Level.toUsize, Level.severity, hm]
  · intro l t
    refine ⟨?_, ?_, ?_, ?_, ?_⟩ <;> rfl
  · intro l r ch hr
    have hen : l.enabled r.metadata = false := by
      simp [ChanneledLogger.enabled, Record.metadata, hr, Level.toUsize]
    unfold ChanneledLogger.log
    simp [hen]
  · intro l r ch hen hroom
    have hlog : (l.log r ch).1
        = { ch with queue := ch.queue ++ [{ level := r.level, text := l.formatter r }] } := by
      unfold ChanneledLogger.log Channel.try_send
      simp [hen, hroom]
    rw [hlog]
    simp

/-- Witness for C1 at concrete inputs: the fourth conjunct applied to
the demo logger, the Warn record and the empty capacity-128 channel. -/
theorem c1_witness :
    (demoLogger.log demoRecordWarn demoChannel).1.queue
        = demoChannel.queue
            ++ [{ level := demoRecordWarn.level
                , text := demoLogger.formatter demoRecordWarn }]
      ∧ (demoLogger.log demoRecordWarn demoChannel).1.queue.length
          = demoChannel.queue.length + 1 :=
  c1_enabled_and_per_call_line.2.2.2 demoLogger demoRecordWarn demoChannel
    (by decide) (by decide)

/-- Claim C2: on an enabled record, `log`'s effect on the channel is
exactly a non-blocking `try_send` of the formatted LogLine; when the
channel is full the channel is returned unchanged (existing contents
intact, new line discarded) and `log` still completes its normal
stdout mirroring — no error reaches the caller. -/
theorem c2_full_channel_discards (l : ChanneledLogger) (r : Record) (ch : Channel)
    (hen : l.enabled r.metadata = true) (hfull : ch.cap ≤ ch.queue.length) :
    (l.log r ch).1 = (ch.try_send { level := r.level, text := l.formatter r }).1
  ∧ (l.log r ch).1 = ch
  ∧ (l.log r ch).2 = (if l.stdout then [l.formatter r] else []) := by
  have hnoroom : ¬ ch.queue.length < ch.cap := by omega
  have hsend : (ch.try_send { level := r.level, text := l.formatter r }).1 = ch := by
    unfold Channel.try_send
    simp [hnoroom]
  unfold ChanneledLogger.log
  simp [hen, hsend]

/-- Witness for C2: the demo logger logging an enabled record into a
full capacity-1 channel leaves the channel exactly as it was. -/
theorem c2_witness :
    (demoLogger.log demoRecordWarn demoFullChannel).1
        = (demoFullChannel.try_send
            { level := demoRecordWarn.level
            , text := demoLogger.formatter demoRecordWarn }).1
      ∧ (demoLogger.log demoRecordWarn demoFullChannel).1 = demoFullChannel
      ∧ (demoLogger.log demoRecordWarn demoFullChannel).2
          = (if demoLogger.stdout then [demoLogger.formatter demoRecordWarn] else []) :=
  c2_full_channel_discards demoLogger demoRecordWarn demoFullChannel
    (by decide) (by decide)

/-- Claim C3: the default formatter yields
`"{file}:{line} --- {LEVEL}: {message}\n"` when file and line are both
known and `"{target} --- {LEVEL}: {message}\n"` otherwise; in
particular `"a.rs:10 --- WARN: x\n"` and `"mod --- INFO: y\n"` on the
two concrete records of the spec. -/
theorem c3_default_formatter_shape :
    (∀ (r : Record) (f : String) (n : Nat), r.file = some f → r.line = some n →
        default_formatter r
          = f ++ ":" ++ toString n ++ " --- " ++ r.level.display ++ ": " ++ r.args ++ "\n")
  ∧ (∀ (r : Record), r.file = none ∨ r.line = none →
        default_formatter r
          = r.target ++ " --- " ++ r.level.display ++ ": " ++ r.args ++ "\n")
  ∧ default_formatter demoRecordWarn = "a.rs:10 --- WARN: x\n"
  ∧ default_formatter demoRecordInfo = "mod --- INFO: y\n" := by
  refine ⟨?_, ?_, by decide, by decide⟩
  · intro r f n hf hn
    unfold default_formatter
    rw [hf, hn]
  · intro r hr
    unfold default_formatter
    rcases hr with hf | hn
    · rw [hf]
    · rw [hn]
      rcases hfile : r.file with _ | f <;> rfl

/-- Witness for C3: the file/line branch applied to the concrete Warn
record. -/
theorem c3_witness :
    default_formatter demoRecordWarn
      = "a.rs" ++ ":" ++ toString 10 ++ " --- "
          ++ demoRecordWarn.level.display ++ ": " ++ demoRecordWarn.args ++ "\n" :=
  c3_default_formatter_shape.1 demoRecordWarn "a.rs" 10 rfl rfl

/-- On a free facade, `init_with_config` succeeds and returns the window
(with configured colors when given), the fresh capacity-128 channel,
and the facade holding the built logger with max level Debug. -/
theorem init_with_config_ok (config : LoggerConfig) (st : Facade)
    (hfree : st.logger = none) :
    init_with_config config st
      = .ok (((match config.colors with
               | some colors => LogWindow.new.set_colors colors
               | none => LogWindow.new),
              { cap := 128, queue := [] }),
             set_max_level .Debug { st with logger := some config.build }) := by
  unfold init_with_config set_logger set_boxed_logger
  rw [hfree]

/-- Claim C4: the channel made by `init_with_config` has capacity 128
and starts empty; sending exactly 128 lines into the fresh channel and
draining appends exactly those 128 lines to the View buffer; sending
128 + k lines (k > 0) without an intermediate drain delivers only the
first 128 on the next drain — the excess is lost, never queued. -/
theorem c4_capacity_128 (config : LoggerConfig) (st : Facade) (w : LogWindow)
    (ls : List LogLine) (k : Nat) (hfree : st.logger = none) :
    (∃ w0 st1, init_with_config config st
        = .ok ((w0, { cap := 128, queue := [] }), st1))
  ∧ (ls.length = 128 →
        (w.sync (demoChannel.send_all ls)).1.buf = w.buf ++ ls
      ∧ (w.sync (demoChannel.send_all ls)).1.buf.length = w.buf.length + 128)
  ∧ (ls.length = 128 + k → 0 < k →
        (w.sync (demoChannel.send_all ls)).1.buf = w.buf ++ ls.take 128
      ∧ (w.sync (demoChannel.send_all ls)).1.buf.length ≤ w.buf.length + 128) := by
  have hq := Channel.send_all_queue ls demoChannel
  have hqueue : (demoChannel.send_all ls).queue = ls.take 128 := by
    rw [hq.1]
    rfl
  refine ⟨⟨_, _, init_with_config_ok config st hfree⟩, ?_, ?_⟩
  · intro hlen
    rw [LogWindow.sync_eq, hqueue]
    have htake : ls.take 128 = ls := by
      rw [← hlen]
      exact List.take_length ls
    rw [htake]
    simp [hlen]
  · intro hlen hk
    rw [LogWindow.sync_eq, hqueue]
    refine ⟨rfl, ?_⟩
    simp only [List.length_append, List.length_take, hlen]
    omega

/-- Witness for C4: the default config on the start facade, a window,
and 129 identical lines (k = 1): only the first 128 are delivered. -/
theorem c4_witness :
    (∃ w0 st1, init_with_config LoggerConfig.default Facade.start
        = .ok ((w0, { cap := 128, queue := [] }), st1))
  ∧ ((List.replicate 129 ({ level := .Info, text := "i\n" } : LogLine)).length = 128 →
        (LogWindow.new.sync
            (demoChannel.send_all
              (List.replicate 129 ({ level := .Info, text := "i\n" } : LogLine)))).1.buf
          = LogWindow.new.buf ++ List.replicate 129 ({ level := .Info, text := "i\n" } : LogLine)
      ∧ (LogWindow.new.sync
            (demoChannel.send_all
              (List.replicate 129 ({ level := .Info, text := "i\n" } : LogLine)))).1.buf.length
          = LogWindow.new.buf.length + 128)
  ∧ ((List.replicate 129 ({ level := .Info, text := "i\n" } : LogLine)).length = 128 + 1 →
        0 < 1 →
        (LogWindow.new.sync
            (demoChannel.send_all
              (List.replicate 129 ({ level := .Info, text := "i\n" } : LogLine)))).1.buf
          = LogWindow.new.buf
              ++ (List.replicate 129 ({ level := .Info, text := "i\n" } : LogLine)).take 128
      ∧ (LogWindow.new.sync
            (demoChannel.send_all
              (List.replicate 129 ({ level := .Info, text := "i\n" } : LogLine)))).1.buf.length
          ≤ LogWindow.new.buf.length + 128) :=
  c4_capacity_128 LoggerConfig.default Facade.start LogWindow.new
    (List.replicate 129 { level := .Info, text := "i\n" }) 1 rfl

/-- Claim C5: a single producer's `log` calls, at most capacity many
since the last drain (channel empty), are appended by the drain to the
View buffer in the order they were logged (the enabled ones, each as
its formatted line); the buffer's previous contents stay in place, in
order, in front — draining is append-only. -/
theorem c5_single_producer_order (l : ChanneledLogger) (records : List Record)
    (w : LogWindow) (ch : Channel)
    (hempty : ch.queue = []) (hcount : records.length ≤ ch.cap) :
    (w.sync (l.log_all records ch)).1.buf
      = w.buf ++ (records.filter (fun r => l.enabled r.metadata)).map
          (fun r => { level := r.level, text := l.formatter r }) := by
  have hfit : ch.queue.length + records.length ≤ ch.cap := by
    rw [hempty]
    simpa using hcount
  have h := l.log_all_queue records ch hfit
  rw [LogWindow.sync_eq, h.1, hempty]
  simp

/-- Witness for C5: the demo logger logging Warn, Trace, Info in that
order into the fresh channel; after the drain the buffer holds the
Warn and Info lines, in that order (Trace is filtered out). -/
theorem c5_witness :
    (LogWindow.new.sync
        (demoLogger.log_all [demoRecordWarn, demoRecordTrace, demoRecordInfo]
          demoChannel)).1.buf
      = LogWindow.new.buf
          ++ (([demoRecordWarn, demoRecordTrace, demoRecordInfo].filter
                (fun r => demoLogger.enabled r.metadata)).map
              (fun r => { level := r.level, text := demoLogger.formatter r })) :=
  c5_single_producer_order demoLogger [demoRecordWarn, demoRecordTrace, demoRecordInfo]
    LogWindow.new demoChannel rfl (by decide)

/-- Claim C6: with a backend already installed, a second
`init_with_config` call fails: it surfaces the registration conflict
as an error (the `unwrap` panic on `SetLoggerError`) and never returns
a window — not silently ignored or retried. -/
theorem c6_second_init_fails (config1 config2 : LoggerConfig) (st : Facade)
    (hfree : st.logger = none) :
    ∃ pair st1, init_with_config config1 st = .ok (pair, st1)
      ∧ init_with_config config2 st1 = .error .alreadySet
      ∧ ∀ x, init_with_config config2 st1 ≠ .ok x := by
  refine ⟨_, _, init_with_config_ok config1 st hfree, ?_, ?_⟩
  · unfold init_with_config set_logger set_boxed_logger set_max_level
    rfl
  · intro x hx
    rw [show init_with_config config2
          (set_max_level .Debug { st with logger := some config1.build })
        = .error .alreadySet from by
      unfold init_with_config set_logger set_boxed_logger set_max_level
      rfl] at hx
    exact Except.noConfusion hx

/-- Witness for C6: starting from the pristine facade, the first
default-config `init` succeeds and the second fails with the
registration-conflict error. -/
theorem c6_witness :
    ∃ pair st1, init_with_config LoggerConfig.default Facade.start = .ok (pair, st1)
      ∧ init_with_config LoggerConfig.default st1 = .error .alreadySet
      ∧ ∀ x, init_with_config LoggerConfig.default st1 ≠ .ok x :=
  c6_second_init_fails LoggerConfig.default LoggerConfig.default Facade.start rfl

/-- Claim C7: with no new producer activity (channel empty) and no
Clear action, one `build` frame leaves the buffer's line sequence
unchanged and the channel empty, so a repeated `build` frame shows the
same sequence again — no line duplicated, none lost. -/
theorem c7_render_idempotent (w : LogWindow) (ch : Channel) (copy1 copy2 : Bool)
    (hempty : ch.queue = []) :
    (w.build ch false copy1).window.buf = w.buf
  ∧ (w.build ch false copy1).channel.queue = []
  ∧ ((w.build ch false copy1).window.build
        (w.build ch false copy1).channel false copy2).window.buf = w.buf
  ∧ ((w.build ch false copy1).window.build
        (w.build ch false copy1).channel false copy2).displayed
      = (w.build ch false copy1).displayed := by
  unfold LogWindow.build
  rw [LogWindow.sync_eq, hempty]
  simp [LogWindow.sync_eq]

/-- Witness for C7: a window holding one line, an empty channel, Copy
pressed on neither frame. -/
theorem c7_witness :
    let w : LogWindow :=
      { buf := [{ level := .Warn, text := "a.rs:10 --- WARN: x\n" }]
      , autoscroll := false, colors := LogColors.default }
    (w.build demoChannel false false).window.buf = w.buf
  ∧ (w.build demoChannel false false).channel.queue = []
  ∧ ((w.build demoChannel false false).window.build
        (w.build demoChannel false false).channel false false).window.buf = w.buf
  ∧ ((w.build demoChannel false false).window.build
        (w.build demoChannel false false).channel false false).displayed
      = (w.build demoChannel false false).displayed :=
  c7_render_idempotent
    { buf := [{ level := .Warn, text := "a.rs:10 --- WARN: x\n" }]
    , autoscroll := false, colors := LogColors.default }
    demoChannel false false rfl

/-- Claim C8: `clear` empties the buffer's sequence, and a `clear`
followed by a drain (or a full `build` frame) with no new input in the
channel yields an empty buffer and an empty displayed sequence. -/
theorem c8_clear_empties (w : LogWindow) (ch : Channel) (copyPressed : Bool)
    (hempty : ch.queue = []) :
    w.clear.buf = []
  ∧ (w.clear.sync ch).1.buf = []
  ∧ (w.clear.build ch false copyPressed).window.buf = []
  ∧ (w.clear.build ch false copyPressed).displayed = [] := by
  unfold LogWindow.build
  rw [LogWindow.sync_eq, hempty]
  simp [LogWindow.clear]

/-- Witness for C8: clearing a window holding two lines, then draining
the empty channel. -/
theorem c8_witness :
    let w : LogWindow :=
      { buf := [{ level := .Info, text := "one\n" }, { level := .Error, text := "two\n" }]
      , autoscroll := true, colors := LogColors.default }
    w.clear.buf = []
  ∧ (w.clear.sync demoChannel).1.buf = []
  ∧ (w.clear.build demoChannel false false).window.buf = []
  ∧ (w.clear.build demoChannel false false).displayed = [] :=
  c8_clear_empties
    { buf := [{ level := .Info, text := "one\n" }, { level := .Error, text := "two\n" }]
    , autoscroll := true, colors := LogColors.default }
    demoChannel false rfl

/-- Claim C9: `set_colors` replaces the palette wholesale — the
level-to-color lookup afterwards returns the configured value (for
Error in particular) — and every other field of the window, in
particular the stored line sequence and the autoscroll flag, is
unchanged. -/
theorem c9_set_colors_frame (w : LogWindow) (c : LogColors) :
    (w.set_colors c).colors = c
  ∧ (w.set_colors c).colors.level .Error = c.error
  ∧ (w.set_colors c).buf = w.buf
  ∧ (w.set_colors c).autoscroll = w.autoscroll :=
  ⟨rfl, rfl, rfl, rfl⟩

/-- Claim C10: each configuration-builder method changes only its own
field: `with_formatter` sets the formatter and keeps colors and stdout;
`with_colors` sets the colors and keeps formatter and stdout;
`with_stdout` sets the stdout flag and keeps formatter and colors. -/
theorem c10_builder_frame (c : LoggerConfig) (f : Record → String)
    (p : LogColors) (b : Bool) :
    ((c.with_formatter f).formatter = some f
      ∧ (c.with_formatter f).colors = c.colors
      ∧ (c.with_formatter f).stdout = c.stdout)
  ∧ ((c.with_colors p).colors = some p
      ∧ (c.with_colors p).formatter = c.formatter
      ∧ (c.with_colors p).stdout = c.stdout)
  ∧ ((c.with_stdout b).stdout = b
      ∧ (c.with_stdout b).formatter = c.formatter
      ∧ (c.with_stdout b).colors = c.colors) :=
  ⟨⟨rfl, rfl, rfl⟩, ⟨rfl, rfl, rfl⟩, ⟨rfl, rfl, rfl⟩⟩
